import Mathlib

/-!
# Verification of the freight-quoting core (src/app/api/init-db/route.ts, final revision)

Shallow embedding of the text-to-quote pipeline: the natural-language parser
(`parseNaturalLanguage`), country detection (`detectCountry`), the routing
classifier and orchestrator (`POST`), the US address resolver
(`resolveUsAddress`), and the two provider quote normalizers
(`getShippoQuotes`, `getFreightosQuotes`).

Modelling conventions:
* JS numbers are modelled as `ℚ` (IEEE-754 rounding is not modelled; every
  concrete input used below has exactly representable values).
* JS regular expressions are modelled by a small backtracking engine (`RE`)
  with JavaScript semantics: ordered alternation, greedy/lazy quantifiers,
  leftmost match, capture groups, word boundaries.  Every quantifier in the
  source's patterns ranges over a single-character class, so the engine only
  needs character-class quantifiers (termination is structural).
* `String.normalize('NFD')` is modelled as the identity (it is the identity on
  ASCII input, and every concrete input below is ASCII); the subsequent
  `.replace(/[̀-ͯ]/g, '')` is modelled faithfully by
  `stripCombining`.
* Network and database effects are modelled by explicit environments
  (oracles); a thrown exception from `fetch`/`json()` is an `Except.error`.
-/

namespace FreightPortal

/-! ## Character classes (JS `\d`, `\s`, `\w`) and case folding -/

def isDigitC (c : Char) : Bool := '0' ≤ c && c ≤ '9'

/-- JS `\s` restricted to ASCII whitespace (space, tab, LF, CR, VT, FF). -/
def isWsC (c : Char) : Bool :=
  c = ' ' || c = '\t' || c = '\n' || c = '\r' || c = Char.ofNat 11 || c = Char.ofNat 12

/-- JS `\w` = `[A-Za-z0-9_]`. -/
def isWordC (c : Char) : Bool :=
  ('a' ≤ c && c ≤ 'z') || ('A' ≤ c && c ≤ 'Z') || isDigitC c || c = '_'

/-- ASCII lower-casing of one character (model of `String.toLowerCase`). -/
def lcC (c : Char) : Char :=
  if 'A' ≤ c && c ≤ 'Z' then Char.ofNat (c.toNat + 32) else c

def lcL (l : List Char) : List Char := l.map lcC

def lcS (s : String) : String := String.mk (lcL s.data)

/-- ASCII upper-casing of one character (model of `String.toUpperCase`). -/
def ucC (c : Char) : Char :=
  if 'a' ≤ c && c ≤ 'z' then Char.ofNat (c.toNat - 32) else c

def ucS (s : String) : String := String.mk (s.data.map ucC)

/-- Model of `.replace(/[̀-ͯ]/g, '')` (combining-mark removal).
`normalize('NFD')` itself is modelled as the identity (exact on ASCII). -/
def stripCombining (s : String) : String :=
  String.mk (s.data.filter (fun c => !(0x300 ≤ c.toNat && c.toNat ≤ 0x36F)))

/-- Whitespace trim from both ends (model of JS `String.prototype.trim`). -/
def trimL (l : List Char) : List Char :=
  ((l.dropWhile isWsC).reverse.dropWhile isWsC).reverse

def trimS (s : String) : String := String.mk (trimL s.data)

/-! ## Decimal number parsing (model of `parseFloat` on `\d+(\.\d+)?` text) -/

def digitsToNat (l : List Char) : Nat :=
  l.foldl (fun acc c => acc * 10 + (c.toNat - '0'.toNat)) 0

/-- Fractional part of a decimal literal: a leading `.` followed by digits. -/
def fracPart (rest : List Char) : ℚ :=
  match rest with
  | [] => 0
  | c :: t =>
    if c = '.' then
      (digitsToNat (t.takeWhile isDigitC) : ℚ) / ((10 : ℚ) ^ (t.takeWhile isDigitC).length)
    else 0

/-- `parseFloat` restricted to the shapes the patterns capture
(`\d+(\.\d+)?`): integer part plus optional decimal fraction. -/
def parseFloatQ (s : String) : ℚ :=
  (digitsToNat (s.data.takeWhile isDigitC) : ℚ) + fracPart (s.data.dropWhile isDigitC)

/-! ## The regular-expression engine (JavaScript semantics) -/

/-- Regular expressions as used by the source.  All quantifiers in the
source's patterns range over single-character classes, which keeps the
backtracking matcher structurally terminating. -/
inductive RE where
  /-- empty pattern -/
  | eps
  /-- case-insensitive literal (all source regexes carry the `i` flag,
  and the case-sensitive ones only contain digits and punctuation) -/
  | tok (s : String)
  /-- single-character class -/
  | cls (p : Char → Bool)
  | seq (a b : RE)
  /-- ordered alternation `a|b` -/
  | alt (a b : RE)
  /-- greedy `(?:a)?` -/
  | opt (a : RE)
  /-- greedy `p*` over a character class -/
  | starC (p : Char → Bool)
  /-- greedy `p+` over a character class -/
  | plusC (p : Char → Bool)
  /-- lazy `p+?` over a character class -/
  | plusL (p : Char → Bool)
  /-- capture group number `i` -/
  | grp (i : Nat) (a : RE)
  /-- word boundary `\b` -/
  | wb
  /-- end anchor `$` (no `m` flag anywhere in the source) -/
  | eos

/-- Captures: group index ↦ captured characters; the most recent binding
(set on the successful path only) is first. -/
abbrev Caps := List (Nat × List Char)

def setCap (i : Nat) (v : List Char) (cp : Caps) : Caps := (i, v) :: cp

def getCap (cp : Caps) (i : Nat) : Option (List Char) :=
  match cp with
  | [] => none
  | (j, v) :: t => if j = i then some v else getCap t i

/-- Matcher result: remaining input and captures of the successful path. -/
abbrev MRes := Option (List Char × Caps)

/-- Continuation: remaining input, previous character (for `\b`), captures. -/
abbrev MCont := List Char → Option Char → Caps → MRes

def isWordOpt (c : Option Char) : Bool :=
  match c with
  | none => false
  | some c => isWordC c

/-- `\b` holds between the previous character and the head of the rest. -/
def wbAt (pv : Option Char) (cs : List Char) : Bool :=
  isWordOpt pv ≠ isWordOpt cs.head?

/-- Case-insensitive literal matching. -/
def tokM (t : List Char) (cs : List Char) (pv : Option Char) (cp : Caps) (k : MCont) : MRes :=
  match t, cs with
  | [], _ => k cs pv cp
  | _ :: _, [] => none
  | tc :: tt, c :: rest => if lcC tc = lcC c then tokM tt rest (some c) cp k else none

/-- Greedy `p*`: longest first, backtrack to shorter on failure. -/
def starM (p : Char → Bool) (cs : List Char) (pv : Option Char) (cp : Caps) (k : MCont) : MRes :=
  match cs with
  | [] => k [] pv cp
  | c :: rest =>
    if p c then
      match starM p rest (some c) cp k with
      | some r => some r
      | none => k cs pv cp
    else k cs pv cp

/-- Lazy `p*?` continuation: shortest first, extend on failure. -/
def lazyM (p : Char → Bool) (cs : List Char) (pv : Option Char) (cp : Caps) (k : MCont) : MRes :=
  match k cs pv cp with
  | some r => some r
  | none =>
    match cs with
    | [] => none
    | c :: rest => if p c then lazyM p rest (some c) cp k else none

/-- Characters consumed between two suffixes of the same list. -/
def takeDiff (cs rest : List Char) : List Char := cs.take (cs.length - rest.length)

/-- The last character of `l`, or the fallback when `l` is empty. -/
def lastOr (l : List Char) (pv : Option Char) : Option Char :=
  match l.getLast? with
  | some c => some c
  | none => pv

/-- The backtracking matcher (JavaScript semantics). -/
def reM : RE → List Char → Option Char → Caps → MCont → MRes
  | .eps, cs, pv, cp, k => k cs pv cp
  | .tok s, cs, pv, cp, k => tokM s.data cs pv cp k
  | .cls p, cs, pv, cp, k =>
    match cs with
    | [] => none
    | c :: rest => if p c then k rest (some c) cp else none
  | .seq a b, cs, pv, cp, k =>
    reM a cs pv cp (fun cs' pv' cp' => reM b cs' pv' cp' k)
  | .alt a b, cs, pv, cp, k =>
    match reM a cs pv cp k with
    | some r => some r
    | none => reM b cs pv cp k
  | .opt a, cs, pv, cp, k =>
    match reM a cs pv cp k with
    | some r => some r
    | none => k cs pv cp
  | .starC p, cs, pv, cp, k => starM p cs pv cp k
  | .plusC p, cs, pv, cp, k =>
    match cs with
    | [] => none
    | c :: rest => if p c then starM p rest (some c) cp k else none
  | .plusL p, cs, pv, cp, k =>
    match cs with
    | [] => none
    | c :: rest => if p c then lazyM p rest (some c) cp k else none
  | .grp i a, cs, pv, cp, k =>
    reM a cs pv cp (fun cs' pv' cp' => k cs' pv' (setCap i (takeDiff cs cs') cp'))
  | .wb, cs, pv, cp, k => if wbAt pv cs then k cs pv cp else none
  | .eos, cs, pv, cp, k => if cs.isEmpty then k cs pv cp else none

/-- A successful regex match: matched text, remaining input, captures. -/
structure JsMatch where
  matched : List Char
  rest : List Char
  caps : Caps

/-- Try to match `r` at the current position only. -/
def matchAt (r : RE) (cs : List Char) (pv : Option Char) : Option JsMatch :=
  match reM r cs pv [] (fun rest _ cp => some (rest, cp)) with
  | some (rest, cp) => some ⟨takeDiff cs rest, rest, cp⟩
  | none => none

/-- Leftmost match at or after the current position (JS `exec`/`match`). -/
def searchM (r : RE) (pv : Option Char) (cs : List Char) : Option JsMatch :=
  match matchAt r cs pv with
  | some m => some m
  | none =>
    match cs with
    | [] => none
    | c :: rest => searchM r (some c) rest

/-- First match in the whole string (JS `String.prototype.match`, no `g`). -/
def findFirst (r : RE) (s : String) : Option JsMatch := searchM r none s.data

/-- JS `RegExp.prototype.test`. -/
def reTest (r : RE) (s : String) : Bool := (findFirst r s).isSome

/-- Group `i` of a match as a `String` (`undefined` ↦ `none`). -/
def grpStr (m : JsMatch) (i : Nat) : Option String :=
  (getCap m.caps i).map String.mk

/-- All matches of a `g`-flagged regex collected in order (model of
`collectMatches` at route.ts:382 and of `String.prototype.match` with `g`).
On an empty match the scan advances one character to keep termination; every
pattern it is used with requires at least one character. -/
def execAll (r : RE) (pv : Option Char) (cs : List Char) (fuel : Nat) : List JsMatch :=
  match fuel with
  | 0 => []
  | fuel + 1 =>
    match searchM r pv cs with
    | none => []
    | some m =>
      if m.matched.isEmpty then
        m :: (match m.rest with
          | [] => []
          | c :: rest => execAll r (some c) rest fuel)
      else
        m :: execAll r (lastOr m.matched pv) m.rest fuel

def collectMatches (r : RE) (s : String) : List JsMatch :=
  execAll r none s.data (s.data.length + 1)

/-- Global replacement by a single space (model of `.replace(re, ' ')` with a
`g`-flagged regex). -/
def replaceAll (r : RE) (pv : Option Char) (cs : List Char) (fuel : Nat) : List Char :=
  match fuel with
  | 0 => cs
  | fuel + 1 =>
    match matchAt r cs pv with
    | some m =>
      if m.matched.isEmpty then
        match cs with
        | [] => []
        | c :: rest => c :: replaceAll r (some c) rest fuel
      else
        ' ' :: replaceAll r (lastOr m.matched pv) m.rest fuel
    | none =>
      match cs with
      | [] => []
      | c :: rest => c :: replaceAll r (some c) rest fuel

def replaceAllS (r : RE) (s : String) : String :=
  String.mk (replaceAll r none s.data (s.data.length + 1))

/-- Ordered alternation of a list of patterns (left to right, JS `a|b|c`). -/
def altL : List RE → RE
  | [] => .eps
  | [x] => x
  | x :: xs => .alt x (altL xs)

/-- Ordered alternation of case-insensitive literals. -/
def tokAlt (l : List String) : RE := altL (l.map RE.tok)

def seqL : List RE → RE
  | [] => .eps
  | [x] => x
  | x :: xs => .seq x (seqL xs)

/-- `r{n}` for a fixed small `n`. -/
def repN : Nat → RE → RE
  | 0, _ => .eps
  | 1, r => r
  | n + 1, r => .seq r (repN n r)

/-- Substring test (model of `String.prototype.includes` and of `.test` for a
regex that is a plain alternation of literals). -/
def isPrefixL : List Char → List Char → Bool
  | [], _ => true
  | _ :: _, [] => false
  | a :: as, b :: bs => a = b && isPrefixL as bs

def containsL (hay sub : List Char) : Bool :=
  if isPrefixL sub hay then true
  else
    match hay with
    | [] => false
    | _ :: t => containsL t sub

def includesS (hay sub : String) : Bool := containsL hay.data sub.data

/-! ## The source's regular expressions (route.ts:423-435, 472-502) -/

/-- `(?:x|×|\*|by|por)` — route.ts:423. -/
def sepRE : RE := tokAlt ["x", "×", "*", "by", "por"]

/-- `\s*` / `\s+` -/
def wsStar : RE := .starC isWsC
def wsPlus : RE := .plusC isWsC

/-- `(\d+(?:\.\d+)?)` as capture group `i`. -/
def numGrp (i : Nat) : RE :=
  .grp i (.seq (.plusC isDigitC) (.opt (.seq (.tok ".") (.plusC isDigitC))))

/-- `(in\.?|inch(?:es)?|cm|cms|centimetro(?:s)?|pulgada(?:s)?|")` — route.ts:424. -/
def dimUnitGrp (i : Nat) : RE :=
  .grp i (altL
    [ .seq (.tok "in") (.opt (.tok "."))
    , .seq (.tok "inch") (.opt (.tok "es"))
    , .tok "cm"
    , .tok "cms"
    , .seq (.tok "centimetro") (.opt (.tok "s"))
    , .seq (.tok "pulgada") (.opt (.tok "s"))
    , .tok "\"" ])

/-- `(lb|lbs|pound(?:s)?|libra(?:s)?|kg|kgs|kilo(?:s)?|kilogramo(?:s)?)` — route.ts:425. -/
def weightUnitGrp (i : Nat) : RE :=
  .grp i (altL
    [ .tok "lb"
    , .tok "lbs"
    , .seq (.tok "pound") (.opt (.tok "s"))
    , .seq (.tok "libra") (.opt (.tok "s"))
    , .tok "kg"
    , .tok "kgs"
    , .seq (.tok "kilo") (.opt (.tok "s"))
    , .seq (.tok "kilogramo") (.opt (.tok "s")) ])

/-- `(?:weighing\s+|weight\s+|weighs\s+|peso\s+|pesa\s+|pesando\s+)` — route.ts:427. -/
def weighWordRE : RE :=
  altL
    [ .seq (.tok "weighing") wsPlus
    , .seq (.tok "weight") wsPlus
    , .seq (.tok "weighs") wsPlus
    , .seq (.tok "peso") wsPlus
    , .seq (.tok "pesa") wsPlus
    , .seq (.tok "pesando") wsPlus ]

def commaOrWs (c : Char) : Bool := c = ',' || isWsC c

/-- `boxPattern` — route.ts:426-429 (flags `gi`). -/
def boxPattern : RE :=
  seqL
    [ numGrp 1, wsStar, .opt (dimUnitGrp 2), wsStar, sepRE, wsStar
    , numGrp 3, wsStar, .opt (dimUnitGrp 4), wsStar, sepRE, wsStar
    , numGrp 5, wsStar, .opt (dimUnitGrp 6), wsStar
    , .starC commaOrWs, .opt weighWordRE
    , numGrp 7, .opt (.seq wsStar (weightUnitGrp 8)) ]

/-- `dimOnlyPattern` — route.ts:430-433 (flags `gi`). -/
def dimOnlyPattern : RE :=
  seqL
    [ numGrp 1, wsStar, .opt (dimUnitGrp 2), wsStar, sepRE, wsStar
    , numGrp 3, wsStar, .opt (dimUnitGrp 4), wsStar, sepRE, wsStar
    , numGrp 5, wsStar, .opt (dimUnitGrp 6) ]

/-- `weightPattern` = `(\d+(?:\.\d+)?)\s*(…weight units…)\b` — route.ts:434 (flags `gi`). -/
def weightPattern : RE := seqL [numGrp 1, wsStar, weightUnitGrp 2, .wb]

/-- `weightWordPattern` — route.ts:435 (flag `i`). -/
def weightWordPattern : RE :=
  seqL
    [ tokAlt ["weight", "weighs", "weighing", "peso", "pesa", "pesando"], wsStar
    , numGrp 1, .opt (.seq wsStar (weightUnitGrp 2)) ]

/-- `[\w\s,.-]` — the location capture class of the from/to patterns. -/
def isRouteC (c : Char) : Bool :=
  isWordC c || isWsC c || c = ',' || c = '.' || c = '-'

/-- `/\b(?:from|desde|de)\s+([\w\s,.-]+?)(?:\s+(?:to|a|hasta)\s+|$)/i` — route.ts:472. -/
def fromPattern : RE :=
  seqL
    [ .wb, tokAlt ["from", "desde", "de"], wsPlus
    , .grp 1 (.plusL isRouteC)
    , altL [seqL [wsPlus, tokAlt ["to", "a", "hasta"], wsPlus], .eos] ]

/-- `/\b(?:to|a|hasta)\s+([\w\s,.-]+?)(?:\s+(?:from|de|desde)|$|\.|\n)/i` — route.ts:473. -/
def toPattern : RE :=
  seqL
    [ .wb, tokAlt ["to", "a", "hasta"], wsPlus
    , .grp 1 (.plusL isRouteC)
    , altL [seqL [wsPlus, tokAlt ["from", "de", "desde"]], .eos, .tok ".", .tok "\n"] ]

/-- `/\b\d{5}(-\d{4})?\b/` — the ZIP token pattern (route.ts:478 with `g`,
route.ts:195 without). -/
def zipTokenPattern : RE :=
  seqL
    [ .wb, repN 5 (.cls isDigitC)
    , .opt (.grp 1 (.seq (.tok "-") (repN 4 (.cls isDigitC)))), .wb ]

/-- `/\b\d+(?:\.\d+)?\b/g` — bare-number strip (route.ts:497). -/
def bareNumberPattern : RE :=
  seqL [.wb, .plusC isDigitC, .opt (.seq (.tok ".") (.plusC isDigitC)), .wb]

/-- The keyword-strip alternation — route.ts:498 (flags `gi`). -/
def stripKeywords : List String :=
  [ "ship", "shipping", "box", "boxes", "caja", "cajas", "paquete", "paquetes"
  , "pallet", "pallets", "palet", "palets", "paleta", "paletas", "crate", "crates"
  , "package", "packages", "parcel", "parcels", "freight", "envio", "enviar"
  , "weighing", "weight", "weighs", "peso", "pesa", "pesando", "lb", "lbs"
  , "pound", "pounds", "libra", "libras", "kg", "kgs", "kilo", "kilos"
  , "kilogramo", "kilogramos", "inch", "inches", "in", "cm", "cms"
  , "centimetro", "centimetros", "pulgada", "pulgadas" ]

def stripKeywordPattern : RE := seqL [.wb, .grp 1 (tokAlt stripKeywords), .wb]

/-- `/\s+/g` collapse (route.ts:499). -/
def wsRunPattern : RE := .plusC isWsC

/-- JS `.` (anything except a line terminator; ASCII model). -/
def isDotC (c : Char) : Bool := !(c = '\n' || c = '\r')

/-- `/(?:from|de|desde)?\s*(.+?)\s+(?:to|a|hasta)\s+(.+)/i` — route.ts:502. -/
def simpleRoutePattern : RE :=
  seqL
    [ .opt (tokAlt ["from", "de", "desde"]), wsStar
    , .grp 1 (.plusL isDotC), wsPlus, tokAlt ["to", "a", "hasta"], wsPlus
    , .grp 2 (.plusC isDotC) ]

/-- `US_ZIP_REGEX = /^\d{5}(-\d{4})?$/` — route.ts:131 (anchored test). -/
def usZipTest (s : String) : Bool :=
  (matchAt (seqL [repN 5 (.cls isDigitC)
    , .opt (.grp 1 (.seq (.tok "-") (repN 4 (.cls isDigitC)))), .eos]) s.data none).isSome

/-! ## Unit normalization (route.ts:393-415) -/

def INCHES_PER_CM : ℚ := 3937007874 / 10000000000
def POUNDS_PER_KG : ℚ := 22046226218 / 10000000000

/-- `normalizeLength` — route.ts:393-403. -/
def normalizeLength (value : ℚ) (unit? : Option String) : ℚ :=
  match unit? with
  | none => value
  | some unit =>
    let normalized := lcS unit
    if normalized = "cm" || normalized = "cms" || normalized.startsWith "centimetro" then
      value * INCHES_PER_CM
    else if normalized = "\"" || normalized = "in" || normalized = "inch" ||
        normalized = "inches" || normalized.startsWith "pulgada" then
      value
    else value

/-- `normalizeWeight` — route.ts:405-415. -/
def normalizeWeight (value : ℚ) (unit? : Option String) : ℚ :=
  match unit? with
  | none => value
  | some unit =>
    let normalized := lcS unit
    if normalized = "kg" || normalized = "kgs" || normalized.startsWith "kilo" ||
        normalized.startsWith "kilogramo" then
      value * POUNDS_PER_KG
    else if normalized = "lb" || normalized = "lbs" || normalized.startsWith "pound" ||
        normalized.startsWith "libra" then
      value
    else value

/-! ## Country detection (route.ts:130-132, 540-568) -/

def INTL_INDICATORS : List String :=
  [ "china", "shanghai", "beijing", "uk", "london", "germany", "france", "japan"
  , "tokyo", "canada", "mexico", "india", "australia", "brazil", "brasil", "spain"
  , "espana", "italy", "netherlands", "korea", "vietnam", "thailand", "singapore"
  , "hong kong", "taiwan", "colombia", "argentina", "peru", "chile", "venezuela" ]

def usKeywordPattern : RE := seqL [.wb, .grp 1 (tokAlt ["usa", "us", "united states", "america"]), .wb]

def usCities : List String :=
  [ "miami", "los angeles", "new york", "chicago", "houston", "phoenix"
  , "philadelphia", "san antonio", "san diego", "dallas", "san jose", "austin"
  , "jacksonville", "fort worth", "columbus", "charlotte", "seattle", "denver"
  , "boston", "detroit", "nashville", "portland", "las vegas", "memphis"
  , "louisville", "baltimore", "milwaukee", "albuquerque", "tucson", "fresno"
  , "sacramento", "atlanta", "kansas city", "colorado springs", "omaha", "raleigh"
  , "virginia beach", "oakland", "minneapolis", "tulsa", "wichita", "cleveland"
  , "tampa", "orlando" ]

def usCityPattern : RE := seqL [.wb, .grp 1 (tokAlt usCities), .wb]

/-- A country row of `detectCountry`: `.test` of a plain literal alternation
(no `\b`), i.e. case-insensitive substring containment of any alternative. -/
def anySub (loc : String) (l : List String) : Bool :=
  l.any (fun t => includesS loc t)

/-- `detectCountry` — route.ts:540-568. -/
def detectCountry (location : String) : String :=
  let loc := lcS location
  if usZipTest location || reTest usKeywordPattern loc || reTest usCityPattern loc then "US"
  else if anySub loc ["china", "shanghai", "beijing", "shenzhen", "guangzhou"] then "CN"
  else if anySub loc ["uk", "united kingdom", "london", "manchester", "birmingham", "england", "britain"] then "GB"
  else if anySub loc ["germany", "berlin", "munich", "frankfurt", "hamburg"] then "DE"
  else if anySub loc ["france", "paris", "lyon", "marseille"] then "FR"
  else if anySub loc ["japan", "tokyo", "osaka", "kyoto"] then "JP"
  else if anySub loc ["canada", "toronto", "vancouver", "montreal", "ottawa"] then "CA"
  else if anySub loc ["mexico", "mexico city", "guadalajara", "cancun"] then "MX"
  else if anySub loc ["india", "mumbai", "delhi", "bangalore"] then "IN"
  else if anySub loc ["australia", "sydney", "melbourne", "brisbane"] then "AU"
  else if anySub loc ["brazil", "brasil", "rio de janeiro", "sao paulo"] then "BR"
  else if anySub loc ["puerto rico", "san juan"] then "US"
  else if anySub loc ["spain", "espana", "madrid", "barcelona"] then "ES"
  else if anySub loc ["colombia", "bogota", "medellin", "cali"] then "CO"
  else if anySub loc ["argentina", "buenos aires", "cordoba", "rosario"] then "AR"
  else if anySub loc ["peru", "lima"] then "PE"
  else if anySub loc ["chile", "santiago"] then "CL"
  else if anySub loc ["venezuela", "caracas"] then "VE"
  else "US"

/-! ## The parser (route.ts:417-538) -/

structure Parcel where
  length : ℚ
  width : ℚ
  height : ℚ
  weight : ℚ
deriving DecidableEq, Repr

structure ParsedRequest where
  parcels : List Parcel
  origin : String
  destination : String
  originCountry : String
  destCountry : String
  isInternational : Bool
  isPallet : Bool
  needsBothQuotes : Bool
deriving DecidableEq, Repr

/-- Build one parcel from a `boxPattern` match (route.ts:444-451). -/
def boxMatchToParcel (m : JsMatch) : Parcel :=
  { length := normalizeLength (parseFloatQ ((grpStr m 1).getD "")) (grpStr m 2)
  , width := normalizeLength (parseFloatQ ((grpStr m 3).getD "")) (grpStr m 4)
  , height := normalizeLength (parseFloatQ ((grpStr m 5).getD "")) (grpStr m 6)
  , weight := normalizeWeight (parseFloatQ ((grpStr m 7).getD "")) (grpStr m 8) }

/-- Indexed map, the model of the `for (let i = 0; ...)` accumulation loop at
route.ts:456-468. -/
def mapIdxFrom (f : Nat → α → β) : Nat → List α → List β
  | _, [] => []
  | i, a :: t => f i a :: mapIdxFrom f (i + 1) t

/-- Build one parcel in the positional-pairing fallback (route.ts:456-468). -/
def dimMatchToParcel (defaultWeight : Option ℚ) (weightMatches : List JsMatch)
    (i : Nat) (dim : JsMatch) : Parcel :=
  let weight := match weightMatches.get? i with
    | some wm => normalizeWeight (parseFloatQ ((grpStr wm 1).getD "")) (grpStr wm 2)
    | none => defaultWeight.getD 10
  { length := normalizeLength (parseFloatQ ((grpStr dim 1).getD "")) (grpStr dim 2)
  , width := normalizeLength (parseFloatQ ((grpStr dim 3).getD "")) (grpStr dim 4)
  , height := normalizeLength (parseFloatQ ((grpStr dim 5).getD "")) (grpStr dim 6)
  , weight := weight }

def sumWeight (parcels : List Parcel) : ℚ :=
  parcels.foldl (fun sum p => sum + p.weight) 0

def sumVolume (parcels : List Parcel) : ℚ :=
  parcels.foldl (fun sum p => sum + p.length * p.width * p.height) 0

/-- The unattached weight phrase (route.ts:436-439): `weightWordMatch` and
the derived `defaultWeight`. -/
def defaultWeightOf (normalizedInput : String) : Option ℚ :=
  (findFirst weightWordPattern normalizedInput).map
    (fun m => normalizeWeight (parseFloatQ ((grpStr m 1).getD "")) (grpStr m 2))

/-- Parcel extraction (route.ts:441-469): combined matches first, otherwise
positional pairing of dimension-only and weight-only matches. -/
def extractParcels (normalizedInput : String) (defaultWeight : Option ℚ) : List Parcel :=
  let boxMatches := collectMatches boxPattern normalizedInput
  if boxMatches.length > 0 then
    boxMatches.map boxMatchToParcel
  else
    let dimMatches := collectMatches dimOnlyPattern normalizedInput
    let weightMatches := collectMatches weightPattern normalizedInput
    mapIdxFrom (dimMatchToParcel defaultWeight weightMatches) 0 dimMatches

/-- `parseNaturalLanguage` — route.ts:417-538. -/
def parseNaturalLanguage (input : String) : ParsedRequest :=
  let normalizedInput := stripCombining input
  let text := lcS normalizedInput
  let defaultWeight := defaultWeightOf normalizedInput
  let parcels := extractParcels normalizedInput defaultWeight
  let fromMatch := findFirst fromPattern normalizedInput
  let toMatch := findFirst toPattern normalizedInput
  let zipCodes := (collectMatches zipTokenPattern normalizedInput).map
    (fun m => String.mk m.matched)
  let origin0 :=
    match fromMatch with
    | some m => trimS ((grpStr m 1).getD "")
    | none => if zipCodes.length ≥ 1 then (zipCodes.get? 0).getD "" else ""
  let destination0 :=
    match toMatch with
    | some m => trimS ((grpStr m 1).getD "")
    | none => if zipCodes.length ≥ 2 then (zipCodes.get? 1).getD "" else ""
  let (origin, destination) :=
    if origin0 = "" || destination0 = "" then
      let stripped := trimS (replaceAllS wsRunPattern (replaceAllS stripKeywordPattern
        (replaceAllS bareNumberPattern (replaceAllS weightPattern
          (replaceAllS dimOnlyPattern (replaceAllS boxPattern normalizedInput))))))
      match findFirst simpleRoutePattern stripped with
      | some m =>
        ( if origin0 = "" then trimS ((grpStr m 1).getD "") else origin0
        , if destination0 = "" then trimS ((grpStr m 2).getD "") else destination0 )
      | none => (origin0, destination0)
    else (origin0, destination0)
  let originCountry := detectCountry origin
  let destCountry := detectCountry destination
  let isInternational := originCountry ≠ destCountry ||
    INTL_INDICATORS.any (fun ind => includesS text ind)
  let isPallet := anySub text ["pallet", "freight", "lcl", "fcl", "container"]
  let totalWeight := sumWeight parcels
  let totalVolume := sumVolume parcels
  let multipleBoxes := parcels.length > 1
  let heavyShipment := totalWeight > 150
  let largeVolume := totalVolume > 50000
  let needsBothQuotes := multipleBoxes || (isInternational && !isPallet) ||
    heavyShipment || largeVolume
  { parcels := parcels
  , origin := origin
  , destination := destination
  , originCountry := originCountry
  , destCountry := destCountry
  , isInternational := isInternational
  , isPallet := isPallet
  , needsBothQuotes := needsBothQuotes }

/-! ## Quotes, routing and the orchestrator (route.ts:79-86, 887-961) -/

structure QuoteResult where
  provider : String
  service : String
  price : ℚ
  currency : String
  transitDays : Option String := none
  mode : Option String := none
deriving DecidableEq, Repr

inductive Route where
  | freightosOnly
  | shippoOnly
  | both
deriving DecidableEq, Repr

/-- The first dispatch condition — route.ts:924. -/
def freightCond (p : ParsedRequest) : Bool :=
  p.isPallet || (p.isInternational && !p.needsBothQuotes)

/-- The second dispatch condition, `!parsed.isInternational &&
parsed.parcels.length === 1 && parsed.parcels[0].weight < 70` — route.ts:927. -/
def shippoCond (p : ParsedRequest) : Bool :=
  !p.isInternational &&
    (match p.parcels with
     | [pc] => decide (pc.weight < 70)
     | _ => false)

/-- The routing decision of `POST` — route.ts:924-936. -/
def decideRouting (p : ParsedRequest) : Route :=
  if freightCond p then .freightosOnly
  else if shippoCond p then .shippoOnly
  else .both

def routeLabel : Route → String
  | .freightosOnly => "Freightos Only (Freight)"
  | .shippoOnly => "Shippo Only (Domestic Parcel)"
  | .both => "Both (Comparison)"

/-- Results of the two provider calls, as an oracle: `getShippoQuotes` and
`getFreightosQuotes` are `async` and their values are determined by the
outside world; the orchestrator-level theorems quantify over this
environment. -/
structure ProviderEnv where
  shippo : ParsedRequest → List QuoteResult
  freightos : ParsedRequest → List QuoteResult

/-- The JSON response payload assembled by `POST` (route.ts:910-917, 942-949;
spec §6). -/
structure CoreResponse where
  success : Bool
  quotes : List QuoteResult
  shippo : Option (List QuoteResult)
  freightos : Option (List QuoteResult)
  routing : String
  parsed : ParsedRequest
  missingInfo : Option (List String)
  error : Option String

/-- The `missingInfo` accumulation — route.ts:904-907. -/
def computeMissingInfo (p : ParsedRequest) : List String :=
  (if p.parcels.length = 0 then ["dimensions"] else []) ++
  (if p.origin = "" then ["origin"] else []) ++
  (if p.destination = "" then ["destination"] else [])

/-- Provider dispatch per routing decision — route.ts:920-936.  The pair is
`(shippoQuotes, freightosQuotes)`; a provider that is not queried keeps its
initial `[]` value. -/
def dispatchProviders (env : ProviderEnv) (p : ParsedRequest) :
    List QuoteResult × List QuoteResult :=
  match decideRouting p with
  | .freightosOnly => ([], env.freightos p)
  | .shippoOnly => (env.shippo p, [])
  | .both => (env.shippo p, env.freightos p)

/-- The post-validation part of `POST` — route.ts:920-949. -/
def processValidated (env : ProviderEnv) (p : ParsedRequest) : CoreResponse :=
  let sq := (dispatchProviders env p).1
  let fq := (dispatchProviders env p).2
  { success := true
  , quotes := sq ++ fq
  , shippo := some sq
  , freightos := some fq
  , routing := routeLabel (decideRouting p)
  , parsed := p
  , missingInfo := none
  , error := none }

/-- The core of `POST` on a well-typed request string — route.ts:902-949.
(The malformed-body branch at route.ts:892-900 and the fire-and-forget
`saveToDatabase` call are outside the modelled core.) -/
def postCore (env : ProviderEnv) (request : String) : CoreResponse :=
  let parsed := parseNaturalLanguage request
  let missingInfo := computeMissingInfo parsed
  if missingInfo.length > 0 then
    { success := false
    , quotes := []
    , shippo := none
    , freightos := none
    , routing := "incomplete"
    , parsed := parsed
    , missingInfo := some missingInfo
    , error := some ("Missing information: " ++ String.intercalate ", " missingInfo ++
        ". Please include package dimensions (LxWxH), weight, origin, and destination.") }
  else processValidated env parsed

/-! ## Freightos quote normalization (route.ts:98-128, 659-852)

JS falsy-driven `||` chains on optional numbers/strings are modelled by
`jsOrQ`/`jsOrS`/`jsOrStr` (`undefined`, `0` and `""` select the right
operand).  A numeric string amount is modelled by its value; the sole
divergence is the JS string `"0"` (truthy), which no claim exercises. -/

def jsOrQ (a b : Option ℚ) : Option ℚ :=
  match a with
  | none => b
  | some q => if q = 0 then b else a

def jsOrS (a b : Option String) : Option String :=
  match a with
  | none => b
  | some s => if s = "" then b else a

/-- `a || b` where `b` is a string constant. -/
def jsOrStr (a : Option String) (b : String) : String :=
  match a with
  | none => b
  | some s => if s = "" then b else s

/-- Truthiness of an optional string. -/
def jsTruthyS (s : Option String) : Bool :=
  match s with
  | none => false
  | some s => s ≠ ""

/-- Collapse a falsy optional string to `none`. -/
def ob (s : Option String) : Option String :=
  match s with
  | none => none
  | some v => if v = "" then none else some v

structure MoneyAmount where
  amount : Option ℚ
  currency : Option String
deriving DecidableEq, Repr

/-- `price.min` / `price.max` wrap a `moneyAmount`. -/
structure PriceBound where
  moneyAmount : Option MoneyAmount
deriving DecidableEq, Repr

structure EstPrice where
  min : Option PriceBound
  max : Option PriceBound
  moneyAmount : Option MoneyAmount
deriving DecidableEq, Repr

structure TransitTimes where
  min : Option String
  max : Option String
  unit : Option String
deriving DecidableEq, Repr

structure FreightosEstimateMode where
  mode : Option String
  price : Option EstPrice
  transitTimes : Option TransitTimes
deriving DecidableEq, Repr

/-- `estimatedFreightRates.mode` is a single object or an array — route.ts:729. -/
inductive ModeField where
  | one (m : FreightosEstimateMode)
  | many (ms : List FreightosEstimateMode)
deriving DecidableEq, Repr

structure EstimatedFreightRates where
  mode : Option ModeField
deriving DecidableEq, Repr

structure FreightosResponseInner where
  estimatedFreightRates : Option EstimatedFreightRates
deriving DecidableEq, Repr

structure FreightosRate where
  mode : Option String
  transportMode : Option String
  price : Option ℚ
  totalPrice : Option ℚ
  amount : Option ℚ
  currency : Option String
  transitTime : Option String
  transit_time : Option String
  serviceName : Option String
  service : Option String
deriving DecidableEq, Repr

/-- The parsed freight-provider response body (route.ts:709). -/
structure FreightosBody where
  response : Option FreightosResponseInner
  rates : Option (List FreightosRate)
  results : Option (List FreightosRate)
deriving DecidableEq, Repr

/-- `parseAmount` — route.ts:713-716. -/
def parseAmount (a : Option ℚ) : ℚ := a.getD 0

/-- `toTransitDays` — route.ts:717-726. -/
def toTransitDays (t : Option TransitTimes) : Option String :=
  match t with
  | none => none
  | some transit =>
    if jsTruthyS transit.min && jsTruthyS transit.max then
      some ((transit.min.getD "") ++ "-" ++ (transit.max.getD "") ++ " " ++
        jsOrStr transit.unit "days")
    else if jsTruthyS transit.min then
      some ((transit.min.getD "") ++ " " ++ jsOrStr transit.unit "days")
    else none

/-- `mode.price?.min?.moneyAmount?.amount || mode.price?.moneyAmount?.amount`. -/
def modeAmountChain (m : FreightosEstimateMode) : Option ℚ :=
  jsOrQ (m.price.bind (fun p => p.min.bind (fun b => b.moneyAmount.bind (fun ma => ma.amount))))
    (m.price.bind (fun p => p.moneyAmount.bind (fun ma => ma.amount)))

def modeAmount (m : FreightosEstimateMode) : ℚ := parseAmount (modeAmountChain m)

def modeCurrencyChain (m : FreightosEstimateMode) : Option String :=
  jsOrS (m.price.bind (fun p => p.min.bind (fun b => b.moneyAmount.bind (fun ma => ma.currency))))
    (m.price.bind (fun p => p.moneyAmount.bind (fun ma => ma.currency)))

/-- The reduction step of `buildCheapest` — route.ts:743-747
(`price && price < (minPrice || Infinity) ? mode : min`). -/
def pickCheaperMode (mn m : FreightosEstimateMode) : FreightosEstimateMode :=
  let price := modeAmount m
  let minPrice := modeAmount mn
  if price ≠ 0 && (minPrice = 0 || price < minPrice) then m else mn

/-- `buildCheapest` — route.ts:741-759, as the list of quotes it pushes.
JS `reduce` with an explicit initial value `modeList[0]` folds over the whole
list. -/
def buildCheapest (modeList : List FreightosEstimateMode) (label fallbackMode : String) :
    List QuoteResult :=
  match modeList with
  | [] => []
  | first :: _ =>
    let cheapest := modeList.foldl pickCheaperMode first
    let amount := modeAmount cheapest
    if amount = 0 then []
    else
      [{ provider := "Freightos"
       , service := label ++ " (Estimate)"
       , price := amount
       , currency := jsOrStr (modeCurrencyChain cheapest) "USD"
       , mode := some fallbackMode
       , transitDays := toTransitDays cheapest.transitTimes }]

def isAirModeLabel (m : FreightosEstimateMode) : Bool :=
  match m.mode with
  | none => false
  | some s => lcS s = "air" || lcS s = "express"

def isSurfaceModeLabel (m : FreightosEstimateMode) : Bool :=
  match m.mode with
  | none => false
  | some s =>
    lcS s = "lcl" || lcS s = "fcl" || lcS s = "sea" || lcS s = "ocean" ||
      lcS s = "ltl" || lcS s = "ftl"

/-- `data.response?.estimatedFreightRates?.mode`, normalized to a list
(route.ts:712, 728-729). -/
def modesOf (body : FreightosBody) : Option (List FreightosEstimateMode) :=
  match body.response with
  | none => none
  | some inner =>
    match inner.estimatedFreightRates with
    | none => none
    | some est =>
      match est.mode with
      | none => none
      | some (.one m) => some [m]
      | some (.many ms) => some ms

/-- Shipment-level parameters recomputed by `getFreightosQuotes`
(route.ts:661-673). -/
def freightTotalWeight (p : ParsedRequest) : ℚ := sumWeight p.parcels

def freightTotalVolume (p : ParsedRequest) : ℚ := sumVolume p.parcels

def weightKg (p : ParsedRequest) : ℤ := ⌈freightTotalWeight p * (453592 / 1000000 : ℚ)⌉

def isDomestic (p : ParsedRequest) : Bool := p.originCountry = p.destCountry

def isFreightClass (p : ParsedRequest) : Bool :=
  p.isPallet || decide (freightTotalWeight p > 150) || decide (freightTotalVolume p > 50000)

def allowAir (p : ParsedRequest) : Bool := !(isDomestic p && isFreightClass p)

/-- Tier 1, the structured estimate modes — route.ts:728-767. -/
def tier1Quotes (p : ParsedRequest) (body : FreightosBody) : List QuoteResult :=
  match modesOf body with
  | none => []
  | some modes =>
    let airModes := if allowAir p then modes.filter isAirModeLabel else []
    let freightModes := modes.filter isSurfaceModeLabel
    let airQuotes := if allowAir p then buildCheapest airModes "Air Freight" "Air" else []
    let freightLabel := if isDomestic p && isFreightClass p then "Ground Freight" else "Ocean Freight"
    let freightMode := if isDomestic p && isFreightClass p then "Ground" else "Ocean/LCL"
    airQuotes ++ buildCheapest freightModes freightLabel freightMode

/-- `r.price || r.totalPrice || r.amount`. -/
def ratePriceChain (r : FreightosRate) : Option ℚ := jsOrQ (jsOrQ r.price r.totalPrice) r.amount

/-- `... || 0`. -/
def ratePrice (r : FreightosRate) : ℚ := (ratePriceChain r).getD 0

/-- The reduction step of the flat-list cheapest pick — route.ts:776-780
(`price < (minPrice || Infinity) ? r : min`; no truthiness check on `price`). -/
def pickCheaperRate (mn r : FreightosRate) : FreightosRate :=
  let price := ratePrice r
  let replace :=
    match ratePriceChain mn with
    | none => true
    | some q => if q = 0 then true else decide (price < q)
  if replace then r else mn

def isAirRate (r : FreightosRate) : Bool :=
  r.mode = some "air" || r.transportMode = some "AIR"

def isOceanRate (r : FreightosRate) : Bool :=
  r.mode = some "sea" || r.mode = some "ocean" || r.transportMode = some "SEA" ||
    r.transportMode = some "LCL" || r.transportMode = some "FCL"

/-- `data.rates || data.results || []` (arrays, even empty ones, are truthy). -/
def flatRatesOf (body : FreightosBody) : List FreightosRate :=
  match body.rates with
  | some l => l
  | none => body.results.getD []

/-- The `if (data.rates || data.results)` gate — route.ts:769. -/
def hasFlatField (body : FreightosBody) : Bool := body.rates.isSome || body.results.isSome

def rateTransit (r : FreightosRate) : String := jsOrStr (jsOrS r.transitTime r.transit_time) "Varies"

/-- The cheapest tagged pick of the flat list — route.ts:775-807.  JS `reduce`
without an initial value starts from the first element. -/
def cheapestTagged (rs : List FreightosRate) (serviceLabel modeLabel : String) :
    List QuoteResult :=
  match rs with
  | [] => []
  | first :: rest =>
    let cheapest := rest.foldl pickCheaperRate first
    [{ provider := "Freightos"
     , service := serviceLabel
     , price := ratePrice cheapest
     , currency := jsOrStr cheapest.currency "USD"
     , mode := some modeLabel
     , transitDays := some (rateTransit cheapest) }]

/-- Tier 2's tagged air/ocean picks — route.ts:769-807. -/
def tier2Tagged (body : FreightosBody) : List QuoteResult :=
  if hasFlatField body then
    let rates := flatRatesOf body
    cheapestTagged (rates.filter isAirRate) "Air Freight (Cheapest)" "Air" ++
      cheapestTagged (rates.filter isOceanRate) "Ocean Freight (Cheapest)" "Ocean/LCL"
  else []

/-- Tier 2's verbatim fallback entries — route.ts:810-817. -/
def rateToVerbatim (r : FreightosRate) : QuoteResult :=
  { provider := "Freightos"
  , service := jsOrStr (jsOrS r.serviceName r.service) "Freight"
  , price := ratePrice r
  , currency := jsOrStr r.currency "USD"
  , mode := some (jsOrStr (jsOrS r.mode r.transportMode) "Freight")
  , transitDays := some (rateTransit r) }

def tier2Verbatim (body : FreightosBody) : List QuoteResult :=
  ((flatRatesOf body).take 5).map rateToVerbatim

/-- `Math.round(x * 100) / 100` (JS rounds half toward `+∞`). -/
def jsRound2 (q : ℚ) : ℚ := ((⌊q * 100 + 1 / 2⌋ : ℤ) : ℚ) / 100

/-- Tier 3, the static heuristic estimate — route.ts:821-845. -/
def heuristicQuotes (p : ParsedRequest) : List QuoteResult :=
  (if allowAir p then
    [{ provider := "Freightos"
     , service := "Air Freight (Estimate)"
     , price := jsRound2 ((weightKg p : ℚ) * (35 / 10))
     , currency := "USD"
     , mode := some "Air"
     , transitDays := some "3-7 days" }]
  else []) ++
  [{ provider := "Freightos"
   , service := if isDomestic p && isFreightClass p then "Ground Freight (Estimate)"
       else "Ocean/LCL (Estimate)"
   , price := jsRound2 ((weightKg p : ℚ) *
       (if isDomestic p && isFreightClass p then 12 / 10 else 8 / 10))
   , currency := "USD"
   , mode := some (if isDomestic p && isFreightClass p then "Ground" else "Ocean/LCL")
   , transitDays := some (if isDomestic p && isFreightClass p then "2-7 days" else "15-30 days") }]

/-- The full normalization of a received response — route.ts:709-847.
Control flow: tier 1 pushes into `quotes`; inside the flat-list gate tier 2
appends its tagged picks, and the verbatim slice *returns early* only when
`quotes` is still empty and the flat list is non-empty; finally the heuristic
fires only when `quotes` is still empty. -/
def computeFreightosQuotes (p : ParsedRequest) (body : FreightosBody) : List QuoteResult :=
  let quotes1 := tier1Quotes p body
  if hasFlatField body then
    let rates := flatRatesOf body
    let quotes2 := quotes1 ++ tier2Tagged body
    if quotes2.length = 0 && rates.length > 0 then tier2Verbatim body
    else if quotes2.length = 0 then heuristicQuotes p
    else quotes2
  else if quotes1.length = 0 then heuristicQuotes p
  else quotes1

/-- `getFreightosQuotes` — route.ts:659-852.  The request-building section
(route.ts:663-707) only shapes the outgoing URL; the response is the
oracle's value, and the enclosing `try`/`catch` maps any thrown error
(network failure, non-JSON body) to `[]`. -/
def getFreightosQuotesM (net : Except Unit FreightosBody) (p : ParsedRequest) :
    List QuoteResult :=
  match net with
  | .error _ => []
  | .ok body => computeFreightosQuotes p body

/-! ## US address resolution and the Shippo normalizer (route.ts:139-361, 570-657) -/

def US_STATE_ABBREVIATIONS : List (String × String) :=
  [ ("alabama", "AL"), ("alaska", "AK"), ("arizona", "AZ"), ("arkansas", "AR")
  , ("california", "CA"), ("colorado", "CO"), ("connecticut", "CT"), ("delaware", "DE")
  , ("florida", "FL"), ("georgia", "GA"), ("hawaii", "HI"), ("idaho", "ID")
  , ("illinois", "IL"), ("indiana", "IN"), ("iowa", "IA"), ("kansas", "KS")
  , ("kentucky", "KY"), ("louisiana", "LA"), ("maine", "ME"), ("maryland", "MD")
  , ("massachusetts", "MA"), ("michigan", "MI"), ("minnesota", "MN"), ("mississippi", "MS")
  , ("missouri", "MO"), ("montana", "MT"), ("nebraska", "NE"), ("nevada", "NV")
  , ("new hampshire", "NH"), ("new jersey", "NJ"), ("new mexico", "NM"), ("new york", "NY")
  , ("north carolina", "NC"), ("north dakota", "ND"), ("ohio", "OH"), ("oklahoma", "OK")
  , ("oregon", "OR"), ("pennsylvania", "PA"), ("rhode island", "RI"), ("south carolina", "SC")
  , ("south dakota", "SD"), ("tennessee", "TN"), ("texas", "TX"), ("utah", "UT")
  , ("vermont", "VT"), ("virginia", "VA"), ("washington", "WA"), ("west virginia", "WV")
  , ("wisconsin", "WI"), ("wyoming", "WY"), ("puerto rico", "PR") ]

def assocGet (l : List (String × String)) (k : String) : Option String :=
  match l with
  | [] => none
  | (k', v) :: t => if k' = k then some v else assocGet t k

/-- `normalizeState` — route.ts:200-205 (an empty/absent input is falsy and
yields `undefined`). -/
def normalizeState (state? : Option String) : Option String :=
  match state? with
  | none => none
  | some state =>
    if state = "" then none
    else
      let trimmed := trimS state
      if trimmed.data.length = 2 then some (ucS trimmed)
      else assocGet US_STATE_ABBREVIATIONS (lcS trimmed)

/-- JS `value.split(/\s+/)` (keeps an empty fragment for a leading or
trailing whitespace run). -/
def splitWsJS : List Char → List Char → List (List Char)
  | [], acc => [acc.reverse]
  | c :: t, acc =>
    if isWsC c then acc.reverse :: splitWsJS (t.dropWhile isWsC) []
    else splitWsJS t (c :: acc)
termination_by l _ => l.length
decreasing_by
  · exact Nat.lt_succ_of_le (List.dropWhile_sublist _).length_le
  · exact Nat.lt_succ_self _

def capitalizeJS (w : List Char) : List Char :=
  match w with
  | [] => []
  | c :: t => ucC c :: lcL t

def joinSpace : List (List Char) → List Char
  | [] => []
  | [w] => w
  | w :: ws => w ++ ' ' :: joinSpace ws

/-- `toTitleCase` — route.ts:207-215. -/
def toTitleCase (s : String) : String :=
  String.mk (joinSpace ((splitWsJS s.data []).map capitalizeJS))

/-- `extractZip` — route.ts:194-198 (first `\b\d{5}(-\d{4})?\b` token,
truncated to five digits). -/
def extractZip (location : String) : Option String :=
  (findFirst zipTokenPattern location).map (fun m => String.mk (m.matched.take 5))

def isAsciiLetter (c : Char) : Bool := ('a' ≤ c && c ≤ 'z') || ('A' ≤ c && c ≤ 'Z')

/-- `/,\s*([A-Z]{2})\b/i` — route.ts:234. -/
def stateAbbrevPattern : RE :=
  seqL [.tok ",", wsStar, .grp 1 (repN 2 (.cls isAsciiLetter)), .wb]

/-- `extractStateAbbreviation` — route.ts:233-236. -/
def extractStateAbbreviation (location : String) : Option String :=
  (findFirst stateAbbrevPattern location).bind (fun m => (grpStr m 1).map ucS)

/-- `location.split(',')[0] || ''`. -/
def firstCommaSegment (s : String) : String :=
  String.mk (s.data.takeWhile (fun c => c ≠ ','))

/-- `zip.match(/\d{5}/)?.[0]` — first run of five digits. -/
def first5Digits (s : String) : Option String :=
  (findFirst (repN 5 (.cls isDigitC)) s).map (fun m => String.mk m.matched)

structure CityState where
  city : String
  state : String
deriving DecidableEq, Repr

structure GeoResult where
  city : Option String
  state : Option String
  zip : Option String
  lat : Option String
  lon : Option String
deriving DecidableEq, Repr

structure ResolvedUs where
  city : String
  state : String
  zip : String
deriving DecidableEq, Repr

/-- Oracles for the external lookups of the resolver (zippopotam.us and
Nominatim; each internally catches its own fetch errors and returns `null`
on any failure, hence plain `Option` results). -/
structure GeoEnv where
  lookupZipDetails : String → Option CityState
  geocodeCity : String → Option GeoResult
  reverseGeocodeZip : String → String → Option String
  lookupZipByCityState : String → String → Option String

/-- The process-wide `LOCATION_CACHE` (route.ts:139): association list with
most recent write first; `Map.get`/`Map.set` semantics. -/
abbrev Cache := List (String × ResolvedUs)

def cacheGet (c : Cache) (k : String) : Option ResolvedUs :=
  match c with
  | [] => none
  | (k', v) :: t => if k' = k then some v else cacheGet t k

def cacheSet (c : Cache) (k : String) (v : ResolvedUs) : Cache := (k, v) :: c

/-- The `if (resolved.city && resolved.state)` guard shared by both arms of
`resolveUsAddress` (route.ts:328, 354). -/
def guardCityState (r : ResolvedUs) : Option ResolvedUs :=
  if r.city ≠ "" && r.state ≠ "" then some r else none

/-- Pieces of the geocoding arm of `resolveUsAddress` (route.ts:334-360).
The oracle `geo` is pure, so re-reading `geo.geocodeCity location` in each
piece equals the source's single `geocoded` local. -/
def geoArmZip0 (geo : GeoEnv) (location : String) : Option String :=
  match geo.geocodeCity location with
  | none => none
  | some g =>
    match g.zip with
    | none => none
    | some z => first5Digits z

/-- `let zip = ... || null; if (!zip && geocoded?.lat && geocoded?.lon) zip = await reverseGeocodeZip(...)`. -/
def geoArmZip1 (geo : GeoEnv) (location : String) : Option String :=
  match ob (geoArmZip0 geo location) with
  | some z => some z
  | none =>
    match geo.geocodeCity location with
    | none => none
    | some g =>
      if jsTruthyS g.lat && jsTruthyS g.lon then
        geo.reverseGeocodeZip (g.lat.getD "") (g.lon.getD "")
      else none

def geoArmCity (geo : GeoEnv) (location : String) : String :=
  jsOrStr ((geo.geocodeCity location).bind (fun g => g.city))
    (toTitleCase (firstCommaSegment location))

def geoArmState (geo : GeoEnv) (stateHint : Option String) (location : String) : String :=
  (jsOrS (normalizeState ((geo.geocodeCity location).bind (fun g => g.state))) stateHint).getD ""

/-- `if (!zip && city && state) zip = await lookupZipByCityState(city, state)`. -/
def geoArmZip2 (geo : GeoEnv) (stateHint : Option String) (location : String) : Option String :=
  match ob (geoArmZip1 geo location) with
  | some z => some z
  | none =>
    if geoArmCity geo location ≠ "" && geoArmState geo stateHint location ≠ "" then
      geo.lookupZipByCityState (geoArmCity geo location) (geoArmState geo stateHint location)
    else none

/-- The geocoding arm of `resolveUsAddress` — route.ts:334-360. -/
def resolveUsGeocodeArm (geo : GeoEnv) (stateHint : Option String) (location : String) :
    Option ResolvedUs :=
  match ob (geoArmZip2 geo stateHint location) with
  | none => none
  | some zip =>
    guardCityState
      { city := jsOrStr ((geo.lookupZipDetails zip).map (fun d => d.city))
          (geoArmCity geo location)
      , state := jsOrStr (normalizeState ((geo.lookupZipDetails zip).map (fun d => d.state)))
          (geoArmState geo stateHint location)
      , zip := zip }

/-- The input-ZIP arm of `resolveUsAddress` — route.ts:320-332. -/
def resolveUsZipArm (geo : GeoEnv) (stateHint : Option String) (location : String) :
    Option ResolvedUs :=
  match extractZip location with
  | none => none
  | some zipFromInput =>
    guardCityState
      { city := jsOrStr ((geo.lookupZipDetails zipFromInput).map (fun d => d.city))
          (toTitleCase (firstCommaSegment location))
      , state := (jsOrS (normalizeState ((geo.lookupZipDetails zipFromInput).map (fun d => d.state)))
          stateHint).getD ""
      , zip := zipFromInput }

/-- `resolveUsAddress` — route.ts:314-361, with the cache threaded
explicitly.  Returns the resolution result and the updated cache (a failed
ZIP-arm check falls through to the geocoding arm, as in the source). -/
def resolveUsAddress (geo : GeoEnv) (cache : Cache) (location : String) :
    Option ResolvedUs × Cache :=
  match cacheGet cache (lcS location) with
  | some cached => (some cached, cache)
  | none =>
    match resolveUsZipArm geo (normalizeState (extractStateAbbreviation location)) location with
    | some resolved => (some resolved, cacheSet cache (lcS location) resolved)
    | none =>
      match resolveUsGeocodeArm geo (normalizeState (extractStateAbbreviation location)) location with
      | some resolved => (some resolved, cacheSet cache (lcS location) resolved)
      | none => (none, cache)

/-- The invariant of the process-wide cache: it is written only by the
resolver, which only stores entries with non-empty city and state. -/
def CacheWF (cache : Cache) : Prop :=
  ∀ k v, cacheGet cache k = some v → v.city ≠ "" ∧ v.state ≠ ""

structure ShippoAddress where
  city : String
  state : String
  zip : String
  country : String
deriving DecidableEq, Repr

/-- `buildShippoAddress` — route.ts:363-380. -/
def buildShippoAddress (geo : GeoEnv) (cache : Cache) (location country : String) :
    Option ShippoAddress :=
  if country ≠ "US" then
    let geocoded := geo.geocodeCity location
    let zip : Option String :=
      match geocoded with
      | none => none
      | some g =>
        match g.zip with
        | none => none
        | some z => first5Digits z
    some
      { city := jsOrStr (geocoded.bind (fun g => g.city)) (toTitleCase (firstCommaSegment location))
      , state := (normalizeState (geocoded.bind (fun g => g.state))).getD ""
      , zip := (ob zip).getD ""
      , country := country }
  else
    match (resolveUsAddress geo cache location).1 with
    | none => none
    | some r => some { city := r.city, state := r.state, zip := r.zip, country := "US" }

/-- A rate entry of the Shippo response (route.ts:88-96); `servicelevelName`
models the `servicelevel?.name` chain. -/
structure ShippoRate where
  provider : String
  servicelevelName : Option String
  servicelevel_name : Option String
  amount : String
  currency : String
  estimated_days : Option Nat
  duration_terms : Option String
deriving DecidableEq, Repr

/-- One mapped quote — route.ts:643-648 (`estimated_days` equal to `0` is
falsy). -/
def shippoRateToQuote (rate : ShippoRate) : QuoteResult :=
  { provider := rate.provider
  , service := jsOrStr (jsOrS rate.servicelevelName rate.servicelevel_name) "Standard"
  , price := parseFloatQ rate.amount
  , currency := rate.currency
  , transitDays :=
      match rate.estimated_days with
      | some n => if n ≠ 0 then some (toString n ++ " days") else rate.duration_terms
      | none => rate.duration_terms
  , mode := none }

/-- `.sort((a, b) => a.price - b.price)` — ascending by price (route.ts:649). -/
def sortByPrice (l : List QuoteResult) : List QuoteResult :=
  l.mergeSort (fun a b => decide (a.price ≤ b.price))

/-- The effect environment of one `getShippoQuotes` call: the API key, the
external-lookup oracles, the address cache at call time, and the network
outcome of the rate request (`.error` = `fetch`/`json()` threw; `.ok none` =
a body without a `rates` field). -/
structure ShippoEnv where
  apiKey : Option String
  geo : GeoEnv
  cache : Cache
  network : Except Unit (Option (List ShippoRate))

/-- `getShippoQuotes` — route.ts:570-657.  Both addresses are resolved
against the cache as of call time (`Promise.all`); the request payload
(contact data, parcel strings) only shapes the outgoing call. -/
def getShippoQuotesM (env : ShippoEnv) (p : ParsedRequest) : List QuoteResult :=
  match ob env.apiKey with
  | none => []
  | some _ =>
    match buildShippoAddress env.geo env.cache p.origin p.originCountry,
      buildShippoAddress env.geo env.cache p.destination p.destCountry with
    | some _, some _ =>
      match env.network with
      | .error _ => []
      | .ok none => []
      | .ok (some rates) => sortByPrice (rates.map shippoRateToQuote)
    | _, _ => []

/-! # Theorems -/

/-! ## Supporting lemmas -/

theorem fracPart_nonneg (rest : List Char) : 0 ≤ fracPart rest := by
  unfold fracPart
  cases rest with
  | nil => simp
  | cons c t =>
    simp only
    split
    · positivity
    · simp

theorem parseFloatQ_nonneg (s : String) : 0 ≤ parseFloatQ s := by
  unfold parseFloatQ
  have h1 : (0 : ℚ) ≤ (digitsToNat (s.data.takeWhile isDigitC) : ℚ) := by positivity
  exact add_nonneg h1 (fracPart_nonneg _)

theorem INCHES_PER_CM_nonneg : (0 : ℚ) ≤ INCHES_PER_CM := by
  unfold INCHES_PER_CM; positivity

theorem POUNDS_PER_KG_nonneg : (0 : ℚ) ≤ POUNDS_PER_KG := by
  unfold POUNDS_PER_KG; positivity

theorem normalizeLength_nonneg (q : ℚ) (u : Option String) (hq : 0 ≤ q) :
    0 ≤ normalizeLength q u := by
  unfold normalizeLength
  cases u with
  | none => exact hq
  | some unit =>
    simp only
    split
    · exact mul_nonneg hq INCHES_PER_CM_nonneg
    · split <;> exact hq

theorem normalizeWeight_nonneg (q : ℚ) (u : Option String) (hq : 0 ≤ q) :
    0 ≤ normalizeWeight q u := by
  unfold normalizeWeight
  cases u with
  | none => exact hq
  | some unit =>
    simp only
    split
    · exact mul_nonneg hq POUNDS_PER_KG_nonneg
    · split <;> exact hq

theorem mem_mapIdxFrom {f : Nat → α → β} {i : Nat} {l : List α} {b : β}
    (h : b ∈ mapIdxFrom f i l) : ∃ j a, a ∈ l ∧ b = f j a := by
  induction l generalizing i with
  | nil => simp [mapIdxFrom] at h
  | cons x t ih =>
    simp only [mapIdxFrom, List.mem_cons] at h
    rcases h with h | h
    · exact ⟨i, x, List.mem_cons_self x t, h⟩
    · obtain ⟨j, a, ha, hb⟩ := ih h
      exact ⟨j, a, List.mem_cons_of_mem x ha, hb⟩

/-! ## C2: needsBothQuotes is the documented pure function of the other fields -/

/-- C2: for every input text, the parsed `needsBothQuotes` equals
`multipleBoxes OR (isInternational AND NOT isPallet) OR heavy OR bulky`
computed from the other fields of the same `ParsedRequest`; in particular it
is a pure function of those fields. -/
theorem needsBothQuotes_formula (s : String) :
    (parseNaturalLanguage s).needsBothQuotes =
      (decide ((parseNaturalLanguage s).parcels.length > 1) ||
        ((parseNaturalLanguage s).isInternational && !(parseNaturalLanguage s).isPallet) ||
        decide (sumWeight (parseNaturalLanguage s).parcels > 150) ||
        decide (sumVolume (parseNaturalLanguage s).parcels > 50000)) := rfl

/-! ## C10: the isPallet trigger tokens -/

/-- C10: `isPallet` is true exactly when the (diacritic-stripped, lowercased)
text contains one of the substrings `pallet`, `freight`, `lcl`, `fcl`,
`container` (route.ts:515), and `isPallet` alone forces freight-only
routing (route.ts:924). -/
theorem isPallet_token_characterization (s : String) :
    ((parseNaturalLanguage s).isPallet = true ↔
      (includesS (lcS (stripCombining s)) "pallet" = true ∨
        includesS (lcS (stripCombining s)) "freight" = true ∨
        includesS (lcS (stripCombining s)) "lcl" = true ∨
        includesS (lcS (stripCombining s)) "fcl" = true ∨
        includesS (lcS (stripCombining s)) "container" = true)) ∧
    ((parseNaturalLanguage s).isPallet = true →
      decideRouting (parseNaturalLanguage s) = .freightosOnly) := by
  constructor
  · have h : (parseNaturalLanguage s).isPallet =
        anySub (lcS (stripCombining s)) ["pallet", "freight", "lcl", "fcl", "container"] := rfl
    rw [h]
    simp [anySub, List.any_cons, Bool.or_eq_true, or_assoc]
  · intro h
    unfold decideRouting freightCond
    rw [h]
    simp

/-- Witness for C10 at a concrete input containing the token `freight`. -/
theorem isPallet_token_characterization_witness :
    (parseNaturalLanguage "freight 10x10x10 40lb from 33142 to 90210").isPallet = true ∧
    decideRouting (parseNaturalLanguage "freight 10x10x10 40lb from 33142 to 90210") =
      .freightosOnly := by
  have h := isPallet_token_characterization "freight 10x10x10 40lb from 33142 to 90210"
  have hp : (parseNaturalLanguage "freight 10x10x10 40lb from 33142 to 90210").isPallet = true :=
    h.1.mpr (Or.inr (Or.inl (by decide)))
  exact ⟨hp, h.2 hp⟩

/-! ## C1: provider dispatch follows the routing table -/

theorem freightCond_iff (p : ParsedRequest) :
    freightCond p = true ↔
      (p.isPallet = true ∨ (p.isInternational = true ∧ p.needsBothQuotes = false)) := by
  unfold freightCond
  cases hp : p.isPallet <;> cases hi : p.isInternational <;> cases hn : p.needsBothQuotes <;> simp

theorem shippoCond_iff (p : ParsedRequest) :
    shippoCond p = true ↔
      (p.isInternational = false ∧ ∃ pc, p.parcels = [pc] ∧ pc.weight < 70) := by
  unfold shippoCond
  cases hi : p.isInternational with
  | true =>
    cases hl : p.parcels with
    | nil => simp
    | cons a t => cases t <;> simp
  | false =>
    cases hl : p.parcels with
    | nil => simp
    | cons a t => cases t <;> simp

/-- C1: for every `ParsedRequest` that passes validation, dispatch follows
the routing table (route.ts:924-936): `isPallet`, or international without
`needsBothQuotes`, queries only Freightos; otherwise a domestic single parcel
under 70 lb queries only Shippo; every other case queries both providers and
concatenates their lists (route.ts:938). -/
theorem routing_follows_table (env : ProviderEnv) (p : ParsedRequest)
    (hval : computeMissingInfo p = []) :
    ((p.isPallet = true ∨ (p.isInternational = true ∧ p.needsBothQuotes = false)) →
      decideRouting p = .freightosOnly ∧
      (∀ sh, processValidated ⟨sh, env.freightos⟩ p = processValidated env p) ∧
      (processValidated env p).shippo = some [] ∧
      (processValidated env p).freightos = some (env.freightos p) ∧
      (processValidated env p).quotes = env.freightos p) ∧
    (¬(p.isPallet = true ∨ (p.isInternational = true ∧ p.needsBothQuotes = false)) →
      (p.isInternational = false ∧ ∃ pc, p.parcels = [pc] ∧ pc.weight < 70) →
      decideRouting p = .shippoOnly ∧
      (∀ fr, processValidated ⟨env.shippo, fr⟩ p = processValidated env p) ∧
      (processValidated env p).shippo = some (env.shippo p) ∧
      (processValidated env p).freightos = some [] ∧
      (processValidated env p).quotes = env.shippo p) ∧
    (¬(p.isPallet = true ∨ (p.isInternational = true ∧ p.needsBothQuotes = false)) →
      ¬(p.isInternational = false ∧ ∃ pc, p.parcels = [pc] ∧ pc.weight < 70) →
      decideRouting p = .both ∧
      (processValidated env p).shippo = some (env.shippo p) ∧
      (processValidated env p).freightos = some (env.freightos p) ∧
      (processValidated env p).quotes = env.shippo p ++ env.freightos p) := by
  refine ⟨?_, ?_, ?_⟩
  · intro h
    have hf : freightCond p = true := (freightCond_iff p).mpr h
    have hr : decideRouting p = .freightosOnly := by unfold decideRouting; rw [hf]; rfl
    refine ⟨hr, ?_, ?_, ?_, ?_⟩ <;>
      simp [processValidated, dispatchProviders, hr]
  · intro h1 h2
    have hf : freightCond p = false := by
      cases hfc : freightCond p with
      | true => exact absurd ((freightCond_iff p).mp hfc) h1
      | false => rfl
    have hsc : shippoCond p = true := (shippoCond_iff p).mpr h2
    have hr : decideRouting p = .shippoOnly := by
      unfold decideRouting; rw [hf, hsc]; rfl
    refine ⟨hr, ?_, ?_, ?_, ?_⟩ <;>
      simp [processValidated, dispatchProviders, hr]
  · intro h1 h2
    have hf : freightCond p = false := by
      cases hfc : freightCond p with
      | true => exact absurd ((freightCond_iff p).mp hfc) h1
      | false => rfl
    have hsc : shippoCond p = false := by
      cases hsc : shippoCond p with
      | true => exact absurd ((shippoCond_iff p).mp hsc) h2
      | false => rfl
    have hr : decideRouting p = .both := by
      unfold decideRouting; rw [hf, hsc]; rfl
    refine ⟨hr, ?_, ?_, ?_⟩ <;>
      simp [processValidated, dispatchProviders, hr]

/-- Witness for C1 at a concrete international pallet request. -/
theorem routing_follows_table_witness :
    computeMissingInfo
      { parcels := [{ length := 48, width := 40, height := 48, weight := 500 }]
      , origin := "miami", destination := "london"
      , originCountry := "US", destCountry := "GB"
      , isInternational := true, isPallet := true, needsBothQuotes := true } = [] ∧
    decideRouting
      { parcels := [{ length := 48, width := 40, height := 48, weight := 500 }]
      , origin := "miami", destination := "london"
      , originCountry := "US", destCountry := "GB"
      , isInternational := true, isPallet := true, needsBothQuotes := true } =
      .freightosOnly := by
  refine ⟨by decide, ?_⟩
  exact ((routing_follows_table ⟨fun _ => [], fun _ => []⟩ _ (by decide)).1
    (Or.inl rfl)).1

/-! ## C3: the validation short-circuit -/

theorem computeMissingInfo_spec (p : ParsedRequest) :
    ("dimensions" ∈ computeMissingInfo p ↔ p.parcels = []) ∧
    ("origin" ∈ computeMissingInfo p ↔ p.origin = "") ∧
    ("destination" ∈ computeMissingInfo p ↔ p.destination = "") ∧
    (∀ x ∈ computeMissingInfo p, x = "dimensions" ∨ x = "origin" ∨ x = "destination") := by
  unfold computeMissingInfo
  by_cases h1 : p.parcels = [] <;> by_cases h2 : p.origin = "" <;>
    by_cases h3 : p.destination = "" <;>
    simp [h1, h2, h3, List.length_eq_zero]

/-- C3: when the parsed request lacks parcels, origin or destination, the
core returns `success:false` with routing `"incomplete"`, `missingInfo` is
exactly the absent subset of dimensions/origin/destination, and neither
provider is invoked (route.ts:904-918). -/
theorem validation_short_circuit (env : ProviderEnv) (r : String)
    (h : (parseNaturalLanguage r).parcels = [] ∨ (parseNaturalLanguage r).origin = "" ∨
      (parseNaturalLanguage r).destination = "") :
    (postCore env r).success = false ∧
    (postCore env r).routing = "incomplete" ∧
    (postCore env r).quotes = [] ∧
    (postCore env r).shippo = none ∧
    (postCore env r).freightos = none ∧
    (∃ mi, (postCore env r).missingInfo = some mi ∧
      ("dimensions" ∈ mi ↔ (parseNaturalLanguage r).parcels = []) ∧
      ("origin" ∈ mi ↔ (parseNaturalLanguage r).origin = "") ∧
      ("destination" ∈ mi ↔ (parseNaturalLanguage r).destination = "") ∧
      (∀ x ∈ mi, x = "dimensions" ∨ x = "origin" ∨ x = "destination")) ∧
    (∀ env', postCore env' r = postCore env r) := by
  have hspec := computeMissingInfo_spec (parseNaturalLanguage r)
  have hne : computeMissingInfo (parseNaturalLanguage r) ≠ [] := by
    rcases h with h | h | h
    · exact List.ne_nil_of_mem (hspec.1.mpr h)
    · exact List.ne_nil_of_mem (hspec.2.1.mpr h)
    · exact List.ne_nil_of_mem (hspec.2.2.1.mpr h)
  have hlen : (computeMissingInfo (parseNaturalLanguage r)).length > 0 :=
    List.length_pos.mpr hne
  refine ⟨?_, ?_, ?_, ?_, ?_, ⟨computeMissingInfo (parseNaturalLanguage r), ?_,
    hspec.1, hspec.2.1, hspec.2.2.1, hspec.2.2.2⟩, ?_⟩ <;>
    simp [postCore, hlen]

/-- Witness for C3 at the empty-information input `"hello"`. -/
theorem validation_short_circuit_witness :
    ((parseNaturalLanguage "hello").parcels = [] ∨ (parseNaturalLanguage "hello").origin = "" ∨
      (parseNaturalLanguage "hello").destination = "") ∧
    (postCore ⟨fun _ => [], fun _ => []⟩ "hello").success = false ∧
    (postCore ⟨fun _ => [], fun _ => []⟩ "hello").routing = "incomplete" := by
  have h := validation_short_circuit ⟨fun _ => [], fun _ => []⟩ "hello"
    (Or.inl (by decide))
  exact ⟨Or.inl (by decide), h.1, h.2.1⟩

/-! ## C4: the freight parsing tiers -/

theorem tier2Tagged_of_flat_nil {body : FreightosBody} (h : flatRatesOf body = []) :
    tier2Tagged body = [] := by
  unfold tier2Tagged
  rw [h]
  simp [cheapestTagged]

theorem flatRatesOf_of_not_hasFlatField {body : FreightosBody}
    (h : hasFlatField body = false) : flatRatesOf body = [] := by
  unfold hasFlatField at h
  unfold flatRatesOf
  rcases hr : body.rates with _ | l
  · rcases hs : body.results with _ | l2
    · simp
    · rw [hr, hs] at h; simp at h
  · rw [hr] at h; simp at h

/-- The tier decomposition of `computeFreightosQuotes` (shared helper). -/
theorem computeFreightosQuotes_decomp (p : ParsedRequest) (body : FreightosBody) :
    computeFreightosQuotes p body =
      (if tier1Quotes p body ++ tier2Tagged body ≠ [] then
        tier1Quotes p body ++ tier2Tagged body
      else if flatRatesOf body ≠ [] then tier2Verbatim body
      else heuristicQuotes p) := by
  unfold computeFreightosQuotes
  cases hg : hasFlatField body with
  | false =>
    have h2 : tier2Tagged body = [] :=
      tier2Tagged_of_flat_nil (flatRatesOf_of_not_hasFlatField hg)
    have h3 : flatRatesOf body = [] := flatRatesOf_of_not_hasFlatField hg
    by_cases hq : tier1Quotes p body = [] <;>
      simp [hq, h2, h3, List.length_eq_zero]
  | true =>
    by_cases hq : tier1Quotes p body ++ tier2Tagged body = []
    · obtain ⟨hq1, hq2⟩ := List.append_eq_nil.mp hq
      by_cases hr : flatRatesOf body = []
      · simp [hq1, hq2, hr, List.length_eq_zero]
      · simp [hq1, hq2, hr, List.length_eq_zero, List.length_pos]
    · have hq' := hq
      rw [List.append_eq_nil] at hq'
      simp [hq, hq', List.length_eq_zero, List.length_pos]

/-- C4 counterexample: a response carrying both a structured air estimate
mode and an air-tagged flat rate yields *two* air quotes — the tier-1 air
estimate does not suppress the tier-2 flat-rate air pick, refuting
`first tier that yields a quote wins per category`. -/
theorem freightos_tier_precedence_counterexample :
    tier1Quotes
      { parcels := [{ length := 10, width := 10, height := 10, weight := 10 }]
      , origin := "shanghai", destination := "90210"
      , originCountry := "CN", destCountry := "US"
      , isInternational := true, isPallet := false, needsBothQuotes := true }
      { response := some { estimatedFreightRates := some { mode := some (.many
          [{ mode := some "air"
           , price := some
               { min := some { moneyAmount := some { amount := some 1000, currency := some "USD" } }
               , max := none, moneyAmount := none }
           , transitTimes := none }]) } }
      , rates := some
          [{ mode := some "air", transportMode := none, price := some 500, totalPrice := none
           , amount := none, currency := some "USD", transitTime := none, transit_time := none
           , serviceName := none, service := none }]
      , results := none } =
      [{ provider := "Freightos", service := "Air Freight (Estimate)", price := 1000
       , currency := "USD", transitDays := none, mode := some "Air" }] ∧
    computeFreightosQuotes
      { parcels := [{ length := 10, width := 10, height := 10, weight := 10 }]
      , origin := "shanghai", destination := "90210"
      , originCountry := "CN", destCountry := "US"
      , isInternational := true, isPallet := false, needsBothQuotes := true }
      { response := some { estimatedFreightRates := some { mode := some (.many
          [{ mode := some "air"
           , price := some
               { min := some { moneyAmount := some { amount := some 1000, currency := some "USD" } }
               , max := none, moneyAmount := none }
           , transitTimes := none }]) } }
      , rates := some
          [{ mode := some "air", transportMode := none, price := some 500, totalPrice := none
           , amount := none, currency := some "USD", transitTime := none, transit_time := none
           , serviceName := none, service := none }]
      , results := none } =
      [{ provider := "Freightos", service := "Air Freight (Estimate)", price := 1000
       , currency := "USD", transitDays := none, mode := some "Air" }
      , { provider := "Freightos", service := "Air Freight (Cheapest)", price := 500
        , currency := "USD", transitDays := some "Varies", mode := some "Air" }] := by
  constructor
  · with_unfolding_all rfl
  · with_unfolding_all rfl

/-- C4 amended: the tiers do not suppress each other per category.  The
actual precedence is: tier 1's structured picks and tier 2's tagged
flat-rate picks are *concatenated*; the verbatim flat-list fallback fires
only when that concatenation is empty and the flat list is non-empty; the
static heuristic fires only when nothing else produced a quote. -/
theorem freightos_tier_structure (p : ParsedRequest) (body : FreightosBody) :
    computeFreightosQuotes p body =
      (if tier1Quotes p body ++ tier2Tagged body ≠ [] then
        tier1Quotes p body ++ tier2Tagged body
      else if flatRatesOf body ≠ [] then tier2Verbatim body
      else heuristicQuotes p) :=
  computeFreightosQuotes_decomp p body

/-! ## C6: the static heuristic estimate -/

/-- C6: when the response is received but tiers 1 and 2 yield nothing, the
normalizer synthesizes quotes from `weightKg = ceil(totalWeight × 0.453592)`:
an air quote at `round2(weightKg × 3.5)` USD with transit `3-7 days`, omitted
exactly when the shipment is domestic and freight-class; and a surface quote
at `round2(weightKg × 1.2)` USD with transit `2-7 days` when domestic and
freight-class, else `round2(weightKg × 0.8)` USD with transit `15-30 days` —
so the caller always receives at least one quote (route.ts:821-845). -/
theorem heuristic_fallback_exact (p : ParsedRequest) (body : FreightosBody)
    (h1 : tier1Quotes p body = []) (h2 : flatRatesOf body = []) :
    getFreightosQuotesM (.ok body) p =
      (if (isDomestic p && isFreightClass p) = true then [] else
        [{ provider := "Freightos", service := "Air Freight (Estimate)"
         , price := jsRound2 ((⌈sumWeight p.parcels * (453592 / 1000000 : ℚ)⌉ : ℚ) * (35 / 10))
         , currency := "USD", transitDays := some "3-7 days", mode := some "Air" }]) ++
      [{ provider := "Freightos"
       , service := if (isDomestic p && isFreightClass p) = true then
           "Ground Freight (Estimate)" else "Ocean/LCL (Estimate)"
       , price := jsRound2 ((⌈sumWeight p.parcels * (453592 / 1000000 : ℚ)⌉ : ℚ) *
           (if (isDomestic p && isFreightClass p) = true then 12 / 10 else 8 / 10))
       , currency := "USD"
       , transitDays := some (if (isDomestic p && isFreightClass p) = true then
           "2-7 days" else "15-30 days")
       , mode := some (if (isDomestic p && isFreightClass p) = true then
           "Ground" else "Ocean/LCL") }] ∧
    getFreightosQuotesM (.ok body) p ≠ [] := by
  have htag : tier2Tagged body = [] := tier2Tagged_of_flat_nil h2
  have hmain : getFreightosQuotesM (.ok body) p = heuristicQuotes p := by
    show computeFreightosQuotes p body = heuristicQuotes p
    rw [computeFreightosQuotes_decomp]
    simp [h1, htag, h2]
  constructor
  · rw [hmain]
    unfold heuristicQuotes allowAir weightKg freightTotalWeight
    by_cases hd : (isDomestic p && isFreightClass p) = true <;> simp [hd]
  · rw [hmain]
    unfold heuristicQuotes
    intro hcontra
    exact absurd (List.append_eq_nil.mp hcontra).2 (by simp)

/-- Witness for C6: an empty response body for a domestic 10 lb box
synthesizes the heuristic quotes. -/
theorem heuristic_fallback_exact_witness :
    tier1Quotes
      { parcels := [{ length := 10, width := 10, height := 10, weight := 10 }]
      , origin := "33142", destination := "90210", originCountry := "US", destCountry := "US"
      , isInternational := false, isPallet := false, needsBothQuotes := false }
      { response := none, rates := none, results := none } = [] ∧
    flatRatesOf { response := none, rates := none, results := none } = [] ∧
    getFreightosQuotesM (.ok { response := none, rates := none, results := none })
      { parcels := [{ length := 10, width := 10, height := 10, weight := 10 }]
      , origin := "33142", destination := "90210", originCountry := "US", destCountry := "US"
      , isInternational := false, isPallet := false, needsBothQuotes := false } ≠ [] :=
  ⟨rfl, rfl,
    (heuristic_fallback_exact
      { parcels := [{ length := 10, width := 10, height := 10, weight := 10 }]
      , origin := "33142", destination := "90210", originCountry := "US", destCountry := "US"
      , isInternational := false, isPallet := false, needsBothQuotes := false }
      { response := none, rates := none, results := none } rfl rfl).2⟩

/-! ## C7: provider failures degrade to empty lists and stay isolated -/

/-- C7: neither provider quote function throws to its caller: a missing API
key, an unresolvable address, a network/parse failure, or a body without
rates each yields `[]` (route.ts:576-579, 588-591, 642-656, 848-851), and a
failing provider in the both-providers path leaves the other provider's
quotes in a `success:true` response (route.ts:930-949). -/
theorem providers_never_throw :
    (∀ (env : ShippoEnv) (p : ParsedRequest), ob env.apiKey = none →
      getShippoQuotesM env p = []) ∧
    (∀ (env : ShippoEnv) (p : ParsedRequest),
      (buildShippoAddress env.geo env.cache p.origin p.originCountry = none ∨
        buildShippoAddress env.geo env.cache p.destination p.destCountry = none) →
      getShippoQuotesM env p = []) ∧
    (∀ (env : ShippoEnv) (p : ParsedRequest), env.network = .error () →
      getShippoQuotesM env p = []) ∧
    (∀ (env : ShippoEnv) (p : ParsedRequest), env.network = .ok none →
      getShippoQuotesM env p = []) ∧
    (∀ p : ParsedRequest, getFreightosQuotesM (.error ()) p = []) ∧
    (∀ (fr : ParsedRequest → List QuoteResult) (p : ParsedRequest),
      (processValidated ⟨fun _ => [], fr⟩ p).success = true ∧
      (decideRouting p = .both → (processValidated ⟨fun _ => [], fr⟩ p).quotes = fr p)) ∧
    (∀ (sh : ParsedRequest → List QuoteResult) (p : ParsedRequest),
      (processValidated ⟨sh, fun _ => []⟩ p).success = true ∧
      (decideRouting p = .both → (processValidated ⟨sh, fun _ => []⟩ p).quotes = sh p)) := by
  refine ⟨?_, ?_, ?_, ?_, ?_, ?_, ?_⟩
  · intro env p h
    unfold getShippoQuotesM
    rw [h]
  · intro env p h
    unfold getShippoQuotesM
    cases hk : ob env.apiKey with
    | none => rfl
    | some k =>
      rcases h with h | h
      · rw [h]
      · rw [h]
        all_goals cases buildShippoAddress env.geo env.cache p.origin p.originCountry <;> rfl
  · intro env p h
    unfold getShippoQuotesM
    cases hk : ob env.apiKey with
    | none => rfl
    | some k =>
      cases buildShippoAddress env.geo env.cache p.origin p.originCountry <;>
        cases buildShippoAddress env.geo env.cache p.destination p.destCountry <;>
          simp [h]
  · intro env p h
    unfold getShippoQuotesM
    cases hk : ob env.apiKey with
    | none => rfl
    | some k =>
      cases buildShippoAddress env.geo env.cache p.origin p.originCountry <;>
        cases buildShippoAddress env.geo env.cache p.destination p.destCountry <;>
          simp [h]
  · intro p
    rfl
  · intro fr p
    refine ⟨rfl, fun hr => ?_⟩
    simp [processValidated, dispatchProviders, hr]
  · intro sh p
    refine ⟨rfl, fun hr => ?_⟩
    simp [processValidated, dispatchProviders, hr]

/-- Witness for C7: a missing API key and a thrown freight fetch both yield
empty lists at a concrete request. -/
theorem providers_never_throw_witness :
    getShippoQuotesM
      ⟨none, ⟨fun _ => none, fun _ => none, fun _ _ => none, fun _ _ => none⟩, [], .error ()⟩
      { parcels := [{ length := 10, width := 10, height := 10, weight := 10 }]
      , origin := "33142", destination := "90210", originCountry := "US", destCountry := "US"
      , isInternational := false, isPallet := false, needsBothQuotes := false } = [] ∧
    getFreightosQuotesM (.error ())
      { parcels := [{ length := 10, width := 10, height := 10, weight := 10 }]
      , origin := "33142", destination := "90210", originCountry := "US", destCountry := "US"
      , isInternational := false, isPallet := false, needsBothQuotes := false } = [] :=
  ⟨providers_never_throw.1 _ _ rfl, providers_never_throw.2.2.2.2.1 _⟩

/-! ## C9: the address-resolution cache discipline -/

theorem cacheGet_set (c : Cache) (k k' : String) (v : ResolvedUs) :
    cacheGet (cacheSet c k v) k' = if k = k' then some v else cacheGet c k' := rfl

theorem CacheWF_set {c : Cache} {k : String} {v : ResolvedUs} (hwf : CacheWF c)
    (hc : v.city ≠ "") (hs : v.state ≠ "") : CacheWF (cacheSet c k v) := by
  intro k' v' h
  rw [cacheGet_set] at h
  split at h
  · cases h
    exact ⟨hc, hs⟩
  · exact hwf k' v' h

theorem guardCityState_some {r r' : ResolvedUs} (h : guardCityState r = some r') :
    r'.city ≠ "" ∧ r'.state ≠ "" := by
  unfold guardCityState at h
  split at h
  · rename_i hcond
    cases h
    simpa [Bool.and_eq_true, decide_eq_true_eq] using hcond
  · cases h

theorem resolveUsZipArm_some {geo : GeoEnv} {stateHint : Option String} {loc : String}
    {r : ResolvedUs} (h : resolveUsZipArm geo stateHint loc = some r) :
    r.city ≠ "" ∧ r.state ≠ "" := by
  unfold resolveUsZipArm at h
  cases hz : extractZip loc with
  | none => rw [hz] at h; cases h
  | some zip =>
    rw [hz] at h
    exact guardCityState_some h

theorem resolveUsGeocodeArm_some {geo : GeoEnv} {stateHint : Option String} {loc : String}
    {r : ResolvedUs} (h : resolveUsGeocodeArm geo stateHint loc = some r) :
    r.city ≠ "" ∧ r.state ≠ "" := by
  unfold resolveUsGeocodeArm at h
  cases hz : ob (geoArmZip2 geo stateHint loc) with
  | none => rw [hz] at h; cases h
  | some zip =>
    rw [hz] at h
    exact guardCityState_some h

/-- C9: the resolver writes a cache entry exactly when resolution succeeds:
a returned address has a non-empty city and state and is stored under the
lowercased input (so a repeated call returns it with no external lookups);
a failed resolution returns no address and stores nothing, and the
small-parcel provider call is skipped for that request
(route.ts:314-361, 588-591). -/
theorem resolver_cache_discipline :
    (∀ (geo : GeoEnv) (cache : Cache) (loc : String) (a : ResolvedUs) (cache' : Cache),
      CacheWF cache →
      resolveUsAddress geo cache loc = (some a, cache') →
      a.city ≠ "" ∧ a.state ≠ "" ∧ cacheGet cache' (lcS loc) = some a ∧ CacheWF cache') ∧
    (∀ (geo geo' : GeoEnv) (cache : Cache) (loc : String) (a : ResolvedUs),
      cacheGet cache (lcS loc) = some a →
      resolveUsAddress geo cache loc = (some a, cache) ∧
      resolveUsAddress geo cache loc = resolveUsAddress geo' cache loc) ∧
    (∀ (geo : GeoEnv) (cache cache' : Cache) (loc : String),
      resolveUsAddress geo cache loc = (none, cache') → cache' = cache) ∧
    (∀ (env : ShippoEnv) (p : ParsedRequest),
      ((p.originCountry = "US" ∧ (resolveUsAddress env.geo env.cache p.origin).1 = none) ∨
        (p.destCountry = "US" ∧ (resolveUsAddress env.geo env.cache p.destination).1 = none)) →
      getShippoQuotesM env p = []) := by
  refine ⟨?_, ?_, ?_, ?_⟩
  · intro geo cache loc a cache' hwf h
    unfold resolveUsAddress at h
    cases hc : cacheGet cache (lcS loc) with
    | some cached =>
      rw [hc] at h
      simp only [Prod.mk.injEq, Option.some.injEq] at h
      obtain ⟨ha, hcache⟩ := h
      subst ha
      subst hcache
      exact ⟨(hwf _ _ hc).1, (hwf _ _ hc).2, hc, hwf⟩
    | none =>
      rw [hc] at h
      cases hz : resolveUsZipArm geo (normalizeState (extractStateAbbreviation loc)) loc with
      | some r =>
        rw [hz] at h
        simp only [Prod.mk.injEq, Option.some.injEq] at h
        obtain ⟨ha, hcache⟩ := h
        subst ha
        obtain ⟨h1, h2⟩ := resolveUsZipArm_some hz
        refine ⟨h1, h2, ?_, ?_⟩
        · rw [← hcache, cacheGet_set, if_pos rfl]
        · rw [← hcache]
          exact CacheWF_set hwf h1 h2
      | none =>
        rw [hz] at h
        cases hg : resolveUsGeocodeArm geo (normalizeState (extractStateAbbreviation loc)) loc with
        | some r =>
          rw [hg] at h
          simp only [Prod.mk.injEq, Option.some.injEq] at h
          obtain ⟨ha, hcache⟩ := h
          subst ha
          obtain ⟨h1, h2⟩ := resolveUsGeocodeArm_some hg
          refine ⟨h1, h2, ?_, ?_⟩
          · rw [← hcache, cacheGet_set, if_pos rfl]
          · rw [← hcache]
            exact CacheWF_set hwf h1 h2
        | none =>
          rw [hg] at h
          cases h
  · intro geo geo' cache loc a h
    constructor
    · unfold resolveUsAddress
      rw [h]
    · unfold resolveUsAddress
      rw [h]
  · intro geo cache cache' loc h
    unfold resolveUsAddress at h
    cases hc : cacheGet cache (lcS loc) with
    | some cached => rw [hc] at h; cases h
    | none =>
      rw [hc] at h
      cases hz : resolveUsZipArm geo (normalizeState (extractStateAbbreviation loc)) loc with
      | some r => rw [hz] at h; cases h
      | none =>
        rw [hz] at h
        cases hg : resolveUsGeocodeArm geo (normalizeState (extractStateAbbreviation loc)) loc with
        | some r => rw [hg] at h; cases h
        | none =>
          rw [hg] at h
          cases h
          rfl
  · intro env p h
    unfold getShippoQuotesM
    cases hk : ob env.apiKey with
    | none => rfl
    | some k =>
      rcases h with ⟨hc, hr⟩ | ⟨hc, hr⟩
      · have hb : buildShippoAddress env.geo env.cache p.origin p.originCountry = none := by
          unfold buildShippoAddress
          rw [hc]
          simp [hr]
        rw [hb]
      · have hb : buildShippoAddress env.geo env.cache p.destination p.destCountry = none := by
          unfold buildShippoAddress
          rw [hc]
          simp [hr]
        rw [hb]
        all_goals cases buildShippoAddress env.geo env.cache p.origin p.originCountry <;> rfl

/-- Witness for C9: a cache hit is returned as-is, independent of the
lookup oracles. -/
theorem resolver_cache_discipline_witness :
    cacheGet [("miami", { city := "Miami", state := "FL", zip := "33101" })] (lcS "Miami") =
      some { city := "Miami", state := "FL", zip := "33101" } ∧
    resolveUsAddress ⟨fun _ => none, fun _ => none, fun _ _ => none, fun _ _ => none⟩
      [("miami", { city := "Miami", state := "FL", zip := "33101" })] "Miami" =
      (some { city := "Miami", state := "FL", zip := "33101" },
        [("miami", { city := "Miami", state := "FL", zip := "33101" })]) :=
  ⟨by decide,
    (resolver_cache_discipline.2.1
      ⟨fun _ => none, fun _ => none, fun _ _ => none, fun _ _ => none⟩
      ⟨fun _ => none, fun _ => none, fun _ _ => none, fun _ _ => none⟩
      [("miami", { city := "Miami", state := "FL", zip := "33101" })] "Miami"
      { city := "Miami", state := "FL", zip := "33101" } (by decide)).1⟩

/-! ## C8: parsed parcel values -/

theorem boxMatchToParcel_nonneg (m : JsMatch) :
    0 ≤ (boxMatchToParcel m).length ∧ 0 ≤ (boxMatchToParcel m).width ∧
    0 ≤ (boxMatchToParcel m).height ∧ 0 ≤ (boxMatchToParcel m).weight := by
  unfold boxMatchToParcel
  exact ⟨normalizeLength_nonneg _ _ (parseFloatQ_nonneg _),
    normalizeLength_nonneg _ _ (parseFloatQ_nonneg _),
    normalizeLength_nonneg _ _ (parseFloatQ_nonneg _),
    normalizeWeight_nonneg _ _ (parseFloatQ_nonneg _)⟩

theorem defaultWeightOf_nonneg (n : String) (q : ℚ) (h : defaultWeightOf n = some q) :
    0 ≤ q := by
  unfold defaultWeightOf at h
  cases hf : findFirst weightWordPattern n with
  | none => rw [hf] at h; cases h
  | some m =>
    rw [hf] at h
    simp at h
    subst h
    exact normalizeWeight_nonneg _ _ (parseFloatQ_nonneg _)

theorem dimMatchToParcel_nonneg (dw : Option ℚ) (wm : List JsMatch) (i : Nat) (dim : JsMatch)
    (hdw : ∀ q, dw = some q → 0 ≤ q) :
    0 ≤ (dimMatchToParcel dw wm i dim).length ∧ 0 ≤ (dimMatchToParcel dw wm i dim).width ∧
    0 ≤ (dimMatchToParcel dw wm i dim).height ∧ 0 ≤ (dimMatchToParcel dw wm i dim).weight := by
  unfold dimMatchToParcel
  refine ⟨normalizeLength_nonneg _ _ (parseFloatQ_nonneg _),
    normalizeLength_nonneg _ _ (parseFloatQ_nonneg _),
    normalizeLength_nonneg _ _ (parseFloatQ_nonneg _), ?_⟩
  cases hw : wm.get? i with
  | some w =>
    simp only
    exact normalizeWeight_nonneg _ _ (parseFloatQ_nonneg _)
  | none =>
    simp only
    cases hd : dw with
    | some q => exact hdw q hd
    | none => norm_num

/-- C8 counterexample: the claim `all parcel values are strictly positive`
fails — the number pattern `\d+(\.\d+)?` accepts `0`, so
`"0x5x5 0lb ..."` parses to a parcel with zero length and zero weight. -/
theorem parcel_values_positive_counterexample :
    ¬ (∀ p ∈ (parseNaturalLanguage "0x5x5 0lb from miami to orlando").parcels,
        0 < p.length ∧ 0 < p.width ∧ 0 < p.height ∧ 0 < p.weight) := by
  intro hall
  have h : (parseNaturalLanguage "0x5x5 0lb from miami to orlando").parcels =
      [{ length := 0, width := 5, height := 5, weight := 0 }] := by with_unfolding_all rfl
  have hx := hall { length := 0, width := 5, height := 5, weight := 0 }
    (by rw [h]; exact List.mem_singleton_self _)
  exact lt_irrefl (0 : ℚ) hx.1

/-- C8 amended: every parcel produced by parsing has non-negative length,
width, height and weight — the captured numerals are non-negative decimals,
the unit conversions multiply by positive constants, and the fallback weight
default is 10 (route.ts:441-469). -/
theorem parcel_values_nonneg (s : String) :
    ∀ p ∈ (parseNaturalLanguage s).parcels,
      0 ≤ p.length ∧ 0 ≤ p.width ∧ 0 ≤ p.height ∧ 0 ≤ p.weight := by
  intro p hp
  have hpar : (parseNaturalLanguage s).parcels =
      extractParcels (stripCombining s) (defaultWeightOf (stripCombining s)) := rfl
  rw [hpar] at hp
  have hext : extractParcels (stripCombining s) (defaultWeightOf (stripCombining s)) =
      if (collectMatches boxPattern (stripCombining s)).length > 0 then
        (collectMatches boxPattern (stripCombining s)).map boxMatchToParcel
      else
        mapIdxFrom
          (dimMatchToParcel (defaultWeightOf (stripCombining s))
            (collectMatches weightPattern (stripCombining s)))
          0 (collectMatches dimOnlyPattern (stripCombining s)) := rfl
  rw [hext] at hp
  split at hp
  · obtain ⟨m, _, rfl⟩ := List.mem_map.mp hp
    exact boxMatchToParcel_nonneg m
  · obtain ⟨j, a, _, rfl⟩ := mem_mapIdxFrom hp
    exact dimMatchToParcel_nonneg _ _ _ _ (defaultWeightOf_nonneg _)

/-- Witness for C8 (amended) at the zero-valued parcel input. -/
theorem parcel_values_nonneg_witness :
    ({ length := 0, width := 5, height := 5, weight := 0 } : Parcel) ∈
      (parseNaturalLanguage "0x5x5 0lb from miami to orlando").parcels ∧
    (0 : ℚ) ≤ ({ length := 0, width := 5, height := 5, weight := 0 } : Parcel).length := by
  have h : (parseNaturalLanguage "0x5x5 0lb from miami to orlando").parcels =
      [{ length := 0, width := 5, height := 5, weight := 0 }] := by with_unfolding_all rfl
  have hmem : ({ length := 0, width := 5, height := 5, weight := 0 } : Parcel) ∈
      (parseNaturalLanguage "0x5x5 0lb from miami to orlando").parcels := by
    rw [h]
    exact List.mem_singleton_self _
  exact ⟨hmem, (parcel_values_nonneg _ _ hmem).1⟩

/-! ## C5: the documented scenario -/

/-- C5 (code bug): the spec's scenario promises one parcel `{24,10,10,20}`
with destination `"90210"`; the code's `boxPattern` lacks a boundary between
the third dimension and the weight number, so backtracking splits `10` into
height `1` and weight `0` (the phrase `box weighing` cannot be consumed
between them), and the `to|a|hasta` route pattern latches onto the article
`a` of `"Ship a"`, capturing `"24x10x10 box weighing 20lbs"` as the
destination.  The routing label matches the claim, but the parcel and
destination do not. -/
theorem scenario_24x10x10_actual :
    parseNaturalLanguage "Ship a 24x10x10 box weighing 20lbs from 33142 to 90210" =
      { parcels := [{ length := 24, width := 10, height := 1, weight := 0 }]
      , origin := "33142"
      , destination := "24x10x10 box weighing 20lbs"
      , originCountry := "US"
      , destCountry := "US"
      , isInternational := false
      , isPallet := false
      , needsBothQuotes := false } ∧
    decideRouting
      (parseNaturalLanguage "Ship a 24x10x10 box weighing 20lbs from 33142 to 90210") =
      .shippoOnly := by
  constructor
  · with_unfolding_all rfl
  · with_unfolding_all rfl

end FreightPortal
